import Mathlib

/-!
Verification of the browser-side layer of the Data-Analysis-Search-Tool
repository (`static/app.js`), shallowly embedded in Lean 4.

Modelling conventions:
* JSON / JavaScript values are embedded as `JSVal`.  Numbers are modelled as
  integers (`Int`); the claims under consideration never depend on
  floating-point formatting.
* DOM panels are modelled by the strings (or card lists) assigned to their
  `innerHTML`; a `fetch` together with its `.then/.catch` chain is modelled
  as a function from the abstract outcome of the request (`FetchOutcome`)
  to the final panel contents.  A promise rejection and a JSON-parse failure
  follow the same `.catch` path and are both covered by
  `FetchOutcome.rejected`.
* Template literals are reproduced with insignificant indentation/newline
  whitespace removed; no claim depends on inter-tag whitespace.
* Property access `x.f` on `null`/`undefined` throws in JavaScript; every
  handler models this by testing `jsDeref` before dereferencing, and a
  thrown error is an `Except.error` that the surrounding `.catch` turns
  into the fallback message.
* `Array.prototype.sort()` (default string comparator, a stable sort) is
  modelled by the stable `List.insertionSort` under the lexicographic
  order on `String`; on strings the default JS comparator is exactly
  lexicographic comparison (code-unit order, which agrees with code-point
  order on the Basic Multilingual Plane).
-/

/-- A JavaScript/JSON value as received by the frontend. -/
inductive JSVal where
  | undef
  | null
  | bool (b : Bool)
  | num (n : Int)
  | str (s : String)
  | arr (elems : List JSVal)
  | obj (fields : List (String × JSVal))

/-- JavaScript truthiness of a value (`if (x)`).  `{}` and `[]` are truthy;
`""`, `0`, `null`, `undefined`, `false` are falsy. -/
def truthy : JSVal → Bool
  | .undef => false
  | .null => false
  | .bool b => b
  | .num n => n != 0
  | .str s => !s.isEmpty
  | .arr _ => true
  | .obj _ => true

/-- JavaScript disjunction `a || b`. -/
def jsOr (a b : JSVal) : JSVal := if truthy a then a else b

/-- JavaScript nullish coalescing `a ?? b`. -/
def jsNullish (a b : JSVal) : JSVal :=
  match a with
  | .null => b
  | .undef => b
  | v => v

/-- Whether property access on the value is legal in JavaScript
(everything except `null` and `undefined`). -/
def jsDeref : JSVal → Bool
  | .null => false
  | .undef => false
  | _ => true

/-- Property access `v[key]`.  Objects look the key up in their field list;
strings and arrays expose `length` and their indexed elements; property
access on other primitives yields `undefined`.  Call sites guard
`null`/`undefined` (where JavaScript would throw) with `jsDeref`. -/
def getPropV (v : JSVal) (key : String) : JSVal :=
  match v with
  | .obj fields => (fields.lookup key).getD .undef
  | .str s =>
      if key = "length" then .num s.data.length
      else
        match key.toNat? with
        | some i => ((s.data[i]?).map (fun c => JSVal.str (String.singleton c))).getD .undef
        | none => .undef
  | .arr xs =>
      if key = "length" then .num xs.length
      else
        match key.toNat? with
        | some i => (xs[i]?).getD .undef
        | none => .undef
  | _ => .undef

mutual
/-- JavaScript `String(v)` conversion. -/
def jsString : JSVal → String
  | .undef => "undefined"
  | .null => "null"
  | .bool b => cond b "true" "false"
  | .num n => toString n
  | .str s => s
  | .obj _ => "[object Object]"
  | .arr xs => jsArrString xs

/-- Model of `Array.prototype.toString`: elements joined by commas, with `null` and
`undefined` elements rendered as the empty string. -/
def jsArrString : List JSVal → String
  | [] => ""
  | [x] => jsElemString x
  | x :: y :: xs => jsElemString x ++ "," ++ jsArrString (y :: xs)

/-- One element inside an array-to-string conversion. -/
def jsElemString : JSVal → String
  | .undef => ""
  | .null => ""
  | .bool b => cond b "true" "false"
  | .num n => toString n
  | .str s => s
  | .obj _ => "[object Object]"
  | .arr xs => jsArrString xs
end

/-- Model of `Object.entries(v)` (own enumerable string-keyed entries).  On objects it
is the field list; strings and arrays enumerate their indices.  `null` and
`undefined` (where JavaScript would throw) are guarded at every call site
by `|| v` defaulting. -/
def jsEntries : JSVal → List (String × JSVal)
  | .obj fields => fields
  | .str s => s.data.mapIdx (fun i c => (toString i, JSVal.str (String.singleton c)))
  | .arr xs => xs.mapIdx (fun i v => (toString i, v))
  | _ => []

/-- Model of `Object.keys(v)`. -/
def jsKeys (v : JSVal) : List String := (jsEntries v).map Prod.fst

/-- The character class trimmed by `String.prototype.trim` (ECMAScript
WhiteSpace and LineTerminator characters). -/
def jsWhitespace (c : Char) : Bool :=
  c ∈ [' ', Char.ofNat 9, Char.ofNat 10, Char.ofNat 13, Char.ofNat 11, Char.ofNat 12,
        Char.ofNat 0xA0, Char.ofNat 0x1680, Char.ofNat 0x2028, Char.ofNat 0x2029,
        Char.ofNat 0x202F, Char.ofNat 0x205F, Char.ofNat 0x3000, Char.ofNat 0xFEFF]
  || (0x2000 ≤ c.toNat && c.toNat ≤ 0x200A)

/-- Model of `String.prototype.trim`. -/
def jsTrim (s : String) : String :=
  String.mk (((s.data.dropWhile jsWhitespace).reverse.dropWhile jsWhitespace).reverse)

/-- The replacement performed by `escapeHtml`'s regex callback for a single
character: the five HTML-special characters map to their entities, every
other character is returned unchanged (`app.js` lines 219-229). -/
def escapeChar (c : Char) : String :=
  if c = '&' then "&amp;"
  else if c = '<' then "&lt;"
  else if c = '>' then "&gt;"
  else if c = '"' then "&quot;"
  else if c = Char.ofNat 39 then "&#039;"
  else String.singleton c

/-- The replace `String.replace` with the global regex of the five special characters, applied character by character. -/
def escapeChars : List Char → String
  | [] => ""
  | c :: cs => escapeChar c ++ escapeChars cs

/-- The function `escapeHtml` restricted to string input. -/
def escapeHtmlStr (s : String) : String := escapeChars s.data

/-- Model of `escapeHtml(value)` from `app.js` lines 219-229: stringify, then replace
each HTML-special character with its entity. -/
def escapeHtml (v : JSVal) : String := escapeHtmlStr (jsString v)

/-- Characters `encodeURIComponent` leaves unescaped:
`A-Z a-z 0-9 - _ . ! ~ * ' ( )`. -/
def uriUnescaped (c : Char) : Bool :=
  c.isAlpha || c.isDigit ||
    c ∈ ['-', '_', '.', '!', '~', '*', Char.ofNat 39, '(', ')']

/-- Upper-case hexadecimal digit for `n < 16`. -/
def hexDigit (n : Nat) : Char :=
  if n < 10 then Char.ofNat (48 + n) else Char.ofNat (55 + n)

/-- The UTF-8 encoding of one code point, as byte values. -/
def utf8Bytes (c : Char) : List Nat :=
  let n := c.toNat
  if n < 0x80 then [n]
  else if n < 0x800 then [0xC0 + n / 0x40, 0x80 + n % 0x40]
  else if n < 0x10000 then
    [0xE0 + n / 0x1000, 0x80 + (n / 0x40) % 0x40, 0x80 + n % 0x40]
  else
    [0xF0 + n / 0x40000, 0x80 + (n / 0x1000) % 0x40, 0x80 + (n / 0x40) % 0x40,
      0x80 + n % 0x40]

/-- Percent escape of one byte value, upper-case hex. -/
def percentByte (b : Nat) : String :=
  "%" ++ String.singleton (hexDigit (b / 16 % 16)) ++ String.singleton (hexDigit (b % 16))

/-- JavaScript `encodeURIComponent`: unreserved characters pass through,
every other character is written as the `%XX` escapes of its UTF-8 bytes. -/
def encodeURIComponent (s : String) : String :=
  String.join (s.data.map (fun c =>
    if uriUnescaped c then String.singleton c
    else String.join ((utf8Bytes c).map percentByte)))

/-- Abstract outcome of one `fetch`: the promise rejected (network error or
a body that failed JSON parsing — both reach the `.catch`), or a response
arrived with the given `response.ok` flag and parsed JSON body. -/
inductive FetchOutcome where
  | rejected
  | response (ok : Bool) (body : JSVal)

/-- Contents of the results panel: plain markup, or the list of result
cards appended by `doSearch` (one string per card's `innerHTML`). -/
inductive ResultsView where
  | text (html : String)
  | cards (cs : List String)
  deriving DecidableEq

/-- The two panels `doSearch` writes to. -/
structure SearchPanels where
  results : ResultsView
  details : String
  deriving DecidableEq

/-- Placeholder written to the details panel when a search starts. -/
def clickHint : String := "<div class=\"muted\">Click a result to see full fields.</div>"

/-- Notice rendered when a search matches nothing. -/
def noMatches : String := "<div class=\"muted\">No matches.</div>"

/-- Fallback written by `doSearch`'s `.catch`. -/
def searchFail : String := "<div class=\"muted\">Couldn’t run search right now.</div>"

/-- Fallback written by `loadDetails`'s `.catch`. -/
def detailsFail : String := "<div class=\"muted\">Couldn’t load this record.</div>"

/-- Fallback written by `loadInsights`'s `.catch`. -/
def insightsFail : String := "<div class=\"muted\">Couldn’t load insights.</div>"

/-- One row of `renderMiniList` (`app.js` line 103). -/
def miniRow (pair : String × JSVal) : String :=
  "<div class=\"mini-row\"><span>" ++ escapeHtml (JSVal.str pair.1) ++ "</span><b>"
    ++ escapeHtml pair.2 ++ "</b></div>"

/-- Model of `renderMiniList(obj)` from `app.js` lines 93-108: `Object.entries(obj || {})`;
an empty entry list renders the "No data." block, otherwise one row per
entry joined inside a `mini-list` wrapper. -/
def renderMiniList (obj : JSVal) : String :=
  let entries := jsEntries (jsOr obj (JSVal.obj []))
  if entries.length = 0 then "<div class=\"muted\">No data.</div>"
  else "<div class=\"mini-list\">" ++ String.join (entries.map miniRow) ++ "</div>"

/-- The `innerHTML` of one result card (`app.js` lines 139-147). -/
def resultCard (record : JSVal) : String :=
  "<div class=\"result-top\"><div class=\"result-name\">"
    ++ escapeHtml (jsOr (getPropV record "name") (JSVal.str "(no name)"))
    ++ "</div><div class=\"pill\">"
    ++ escapeHtml (jsOr (getPropV record "payment_status") (JSVal.str "—"))
    ++ "</div></div><div class=\"result-sub\">"
    ++ escapeHtml (jsOr (getPropV record "email") (JSVal.str "(no email)"))
    ++ " • "
    ++ escapeHtml (jsOr (getPropV record "phone") (JSVal.str "(no phone)"))
    ++ "</div><div class=\"result-sub\">"
    ++ escapeHtml (jsOr (getPropV record "event_name") (JSVal.str ""))
    ++ " "
    ++ (if truthy (getPropV record "amount")
        then "• " ++ escapeHtml (getPropV record "amount") else "")
    ++ "</div><div class=\"result-meta\">"
    ++ escapeHtml (jsOr (getPropV record "source") (JSVal.str ""))
    ++ "</div>"

/-- The card-building loop of `doSearch` (`data.results.forEach`): builds one
card per element in order; a `null`/`undefined` element makes the property
accesses inside the card template throw, which surfaces as `Except.error`. -/
def buildCards : List JSVal → Except Unit (List String)
  | [] => .ok []
  | r :: rs =>
      if jsDeref r then (buildCards rs).map (fun cs => resultCard r :: cs)
      else .error ()

/-- The test `x.length === 0` as used on `data.results` (`app.js` line 130): strict
equality of the `length` property with the number `0`. -/
def jsLenIsZero (v : JSVal) : Bool :=
  match getPropV v "length" with
  | .num 0 => true
  | _ => false

/-- The `.then(data)` body of `doSearch` (`app.js` lines 127-155): falsy or
zero-length `results` renders the "No matches." notice; an array builds one
card per element in array order; anything else throws (`forEach` is not a
function) and reaches the `.catch`. -/
def doSearchOnData (data : JSVal) : Except Unit ResultsView :=
  if jsDeref data then
    let res := getPropV data "results"
    if !truthy res then .ok (.text noMatches)
    else if jsLenIsZero res then .ok (.text noMatches)
    else
      match res with
      | .arr rs => (buildCards rs).map ResultsView.cards
      | _ => .error ()
  else .error ()

/-- Model of `doSearch()` from `app.js` lines 111-159, as a function of the search
box value, the panel state before the call, and the fetch outcome.  Returns
the final panel state and the list of request URLs issued.  An empty
trimmed query returns immediately: no request, panels untouched. -/
def doSearch (value : String) (st : SearchPanels) (o : FetchOutcome) :
    SearchPanels × List String :=
  let q := if value = "" then "" else jsTrim value
  if q = "" then (st, [])
  else
    let url := "/api/search?q=" ++ encodeURIComponent q ++ "&limit=25"
    let panels :=
      match o with
      | .rejected => { results := .text searchFail, details := clickHint }
      | .response false _ => { results := .text searchFail, details := clickHint }
      | .response true body =>
          match doSearchOnData body with
          | .ok v => { results := v, details := clickHint }
          | .error _ => { results := .text searchFail, details := clickHint }
    (panels, [url])

/-- The header part of the details markup (`app.js` lines 181-204), up to and
including the opening `kv` container. -/
def detailsHead (data : JSVal) : String :=
  "<div class=\"details-head\"><div><div class=\"details-title\">"
    ++ escapeHtml (jsOr (getPropV data "name") (JSVal.str ""))
    ++ "</div><div class=\"details-sub\">"
    ++ escapeHtml (jsOr (getPropV data "email") (JSVal.str ""))
    ++ " • "
    ++ escapeHtml (jsOr (getPropV data "phone") (JSVal.str ""))
    ++ "</div></div><div class=\"details-tag\">"
    ++ escapeHtml (jsOr (getPropV data "payment_status") (JSVal.str "—"))
    ++ "</div></div><div class=\"details-meta\">Source: "
    ++ escapeHtml (getPropV data "source_file")
    ++ ":"
    ++ escapeHtml (getPropV data "row_num")
    ++ "</div><div class=\"details-mini\"><div><span>Event</span><b>"
    ++ escapeHtml (jsOr (getPropV data "event_name") (JSVal.str "—"))
    ++ "</b></div><div><span>Type</span><b>"
    ++ escapeHtml (jsOr (getPropV data "activity_type") (JSVal.str "—"))
    ++ "</b></div><div><span>Date</span><b>"
    ++ escapeHtml (jsOr (getPropV data "activity_date") (JSVal.str "—"))
    ++ "</b></div><div><span>Amount</span><b>"
    ++ escapeHtml (jsOr (getPropV data "amount") (JSVal.str "—"))
    ++ "</b></div></div><div class=\"details-divider\"></div><div class=\"kv\">"

/-- Model of `Object.keys(raw).sort()`: the default comparator sorts strings
lexicographically; modelled by the stable `insertionSort`. -/
def sortKeys (l : List String) : List String := List.insertionSort (· ≤ ·) l

/-- One key/value row of the raw-field dump (`app.js` line 207):
`escapeHtml(key)` against `escapeHtml(String(raw[key] ?? ""))`. -/
def detailsKvRow (raw : JSVal) (key : String) : String :=
  "<div class=\"k\">" ++ escapeHtml (JSVal.str key)
    ++ "</div><div class=\"v\">"
    ++ escapeHtml (JSVal.str (jsString (jsNullish (getPropV raw key) (JSVal.str ""))))
    ++ "</div>"

/-- The raw-field rows of the details view, in sorted key order
(`app.js` lines 179, 206-208). -/
def detailsRows (raw : JSVal) : List String :=
  (sortKeys (jsKeys raw)).map (detailsKvRow raw)

/-- The `.then(data)` body of `loadDetails` (`app.js` lines 172-211): a truthy
`error` field renders only the escaped error message; otherwise the header
plus one row per key of `data.raw || {}` in sorted key order. -/
def loadDetailsBody (data : JSVal) : Except Unit String :=
  if jsDeref data then
    if truthy (getPropV data "error") then
      .ok ("<div class=\"muted\">" ++ escapeHtml (getPropV data "error") ++ "</div>")
    else
      let raw := jsOr (getPropV data "raw") (JSVal.obj [])
      .ok (detailsHead data ++ String.join (detailsRows raw) ++ "</div>")
  else .error ()

/-- Model of `loadDetails` from `app.js` lines 162-216 as a function of the fetch
outcome: rejection, a non-ok status, or a throwing `.then` body all land in
the `.catch` fallback; otherwise the rendered details markup. -/
def loadDetails (o : FetchOutcome) : String :=
  match o with
  | .rejected => detailsFail
  | .response false _ => detailsFail
  | .response true body =>
      match loadDetailsBody body with
      | .ok h => h
      | .error _ => detailsFail

/-- The insights markup (`app.js` lines 46-85): the six scalar snapshot
fields, then the two mini lists. -/
def insightsHtml (d : JSVal) : String :=
  "<div class=\"insight-grid\"><div class=\"insight\"><div class=\"insight-k\">Total records</div><div class=\"insight-v\">"
    ++ escapeHtml (getPropV d "total_records")
    ++ "</div></div><div class=\"insight\"><div class=\"insight-k\">Total amount</div><div class=\"insight-v\">$"
    ++ escapeHtml (getPropV d "total_amount")
    ++ "</div></div><div class=\"insight\"><div class=\"insight-k\">Missing email</div><div class=\"insight-v\">"
    ++ escapeHtml (getPropV d "missing_email_pct")
    ++ "%</div></div><div class=\"insight\"><div class=\"insight-k\">Missing phone</div><div class=\"insight-v\">"
    ++ escapeHtml (getPropV d "missing_phone_pct")
    ++ "%</div></div><div class=\"insight\"><div class=\"insight-k\">Duplicate emails</div><div class=\"insight-v\">"
    ++ escapeHtml (getPropV d "duplicate_emails")
    ++ "</div></div><div class=\"insight\"><div class=\"insight-k\">Duplicate phones</div><div class=\"insight-v\">"
    ++ escapeHtml (getPropV d "duplicate_phones")
    ++ "</div></div></div><div class=\"insight-sep\"></div><div class=\"mini\"><div class=\"mini-title\">Top events</div>"
    ++ renderMiniList (getPropV d "top_events")
    ++ "</div><div class=\"mini\" style=\"margin-top:12px;\"><div class=\"mini-title\">Payment status</div>"
    ++ renderMiniList (getPropV d "top_payment_status")
    ++ "</div>"

/-- The `.then(data)` body of `loadInsights`: property access on a
`null`/`undefined` body throws, otherwise the markup is total. -/
def loadInsightsBody (d : JSVal) : Except Unit String :=
  if jsDeref d then .ok (insightsHtml d) else .error ()

/-- Model of `loadInsights` from `app.js` lines 35-90 as a function of the fetch
outcome. -/
def loadInsights (o : FetchOutcome) : String :=
  match o with
  | .rejected => insightsFail
  | .response false _ => insightsFail
  | .response true body =>
      match loadInsightsBody body with
      | .ok h => h
      | .error _ => insightsFail

/-- Number of occurrences of `pat` as a (possibly overlapping) substring,
counted over all start positions. -/
def countSub (pat : List Char) : List Char → Nat
  | [] => if List.isPrefixOf pat [] then 1 else 0
  | c :: rest =>
      (if List.isPrefixOf pat (c :: rest) then 1 else 0) + countSub pat rest

/-- A character that cannot open or close a tag, an attribute value, or a
single-quoted string in the rendered markup. -/
def htmlSafe (c : Char) : Bool :=
  !(c == '<' || c == '>' || c == '"' || c == Char.ofNat 39)

/-- An insights payload whose eight snapshot fields carry pairwise distinct
marker strings that do not occur in the static template text. -/
def mkInsightsData : JSVal :=
  JSVal.obj [("total_records", JSVal.str "MRKA"), ("total_amount", JSVal.str "MRKB"),
    ("missing_email_pct", JSVal.str "MRKC"), ("missing_phone_pct", JSVal.str "MRKD"),
    ("duplicate_emails", JSVal.str "MRKE"), ("duplicate_phones", JSVal.str "MRKF"),
    ("top_events", JSVal.obj [("MRKG", JSVal.num 3)]),
    ("top_payment_status", JSVal.obj [("MRKH", JSVal.num 4)])]

/-- A record payload that carries an `error` field whose value is the empty
string (falsy), alongside a record field. -/
def emptyErrData : JSVal :=
  JSVal.obj [("error", JSVal.str ""), ("name", JSVal.str "Xname")]

-- ======================================================================
-- Helper lemmas
-- ======================================================================

/-- A value with a property that is not `undefined` is dereferenceable
(in particular it is neither `null` nor `undefined`). -/
theorem jsDeref_of_getPropV_ne_undef {v : JSVal} {k : String}
    (h : getPropV v k ≠ JSVal.undef) : jsDeref v = true := by
  cases v <;> first | rfl | exact absurd rfl h

/-- Association-list lookup returns the unique binding of a present key. -/
theorem lookup_eq_some_of_nodup {l : List (String × JSVal)} {k : String} {v : JSVal}
    (hnd : (l.map Prod.fst).Nodup) (hm : (k, v) ∈ l) : l.lookup k = some v := by
  induction l with
  | nil => cases hm
  | cons p l ih =>
      obtain ⟨k0, v0⟩ := p
      rw [List.map_cons, List.nodup_cons] at hnd
      rcases List.mem_cons.mp hm with h | h
      · obtain ⟨rfl, rfl⟩ := Prod.mk.injEq .. ▸ h
        simp [List.lookup]
      · have hkne : k ≠ k0 := by
          rintro rfl
          exact hnd.1 (List.mem_map.mpr ⟨(k, v), h, rfl⟩)
        have hb : (k == k0) = false := beq_eq_false_iff_ne.mpr hkne
        simpa [List.lookup, hb] using ih hnd.2 h

/-- A successful run of the card loop yields exactly the per-element cards,
in order. -/
theorem buildCards_eq_map : ∀ {rs : List JSVal} {cs : List String},
    buildCards rs = Except.ok cs → cs = rs.map resultCard := by
  intro rs
  induction rs with
  | nil =>
      intro cs h
      simpa [buildCards] using h.symm
  | cons r rs ih =>
      intro cs h
      by_cases hd : jsDeref r
      · rw [buildCards, if_pos hd] at h
        cases hb : buildCards rs with
        | error e => rw [hb] at h; simp [Except.map] at h
        | ok cs0 =>
            rw [hb] at h
            simp only [Except.map, Except.ok.injEq] at h
            rw [List.map_cons, ← ih hb, h]
      · rw [buildCards, if_neg hd] at h
        simp at h

/-- Every character produced by `escapeChar` is HTML-safe. -/
theorem escapeChar_htmlSafe (c : Char) : (escapeChar c).data.all htmlSafe = true := by
  unfold escapeChar
  split
  · decide
  split
  · decide
  split
  · decide
  split
  · decide
  split
  · decide
  rename_i h1 h2 h3 h4 h5
  have : (String.singleton c).data = [c] := rfl
  simp [this, htmlSafe, h2, h3, h4, h5]

/-- Every character produced by `escapeChars` is HTML-safe. -/
theorem escapeChars_htmlSafe (l : List Char) : (escapeChars l).data.all htmlSafe = true := by
  induction l with
  | nil => rfl
  | cons c cs ih =>
      rw [escapeChars, String.data_append, List.all_append, escapeChar_htmlSafe c, ih]
      rfl

-- ======================================================================
-- Claims
-- ======================================================================

/-- Claim C2: for every input string whose trimmed value is empty (empty or
whitespace-only query), `doSearch` performs no network request and leaves
the results panel and details panel contents unchanged. -/
theorem C2_empty_query_noop (value : String) (st : SearchPanels) (o : FetchOutcome)
    (h : jsTrim value = "") :
    doSearch value st o = (st, []) := by
  by_cases hv : value = ""
  · simp [doSearch, hv, jsTrim]
  · simp [doSearch, hv, h]

/-- Witness for C2 at the whitespace-only input `"  "`. -/
theorem C2_witness :
    doSearch "  " { results := ResultsView.text "r", details := "d" } FetchOutcome.rejected =
      ({ results := ResultsView.text "r", details := "d" }, []) :=
  C2_empty_query_noop "  " _ _ (by decide)

/-- Claim C8: for every input string whose trimmed value is non-empty,
`doSearch` issues exactly one search request, whose query parameter is the
URL-encoding of the trimmed input and whose limit parameter is the
constant 25. -/
theorem C8_single_request (value : String) (st : SearchPanels) (o : FetchOutcome)
    (h : jsTrim value ≠ "") :
    (doSearch value st o).2 =
      ["/api/search?q=" ++ encodeURIComponent (jsTrim value) ++ "&limit=25"] ∧
    (doSearch value st o).2.length = 1 := by
  have hv : value ≠ "" := by
    rintro rfl
    exact h rfl
  constructor
  · simp only [doSearch, if_neg hv, if_neg h]
  · simp only [doSearch, if_neg hv, if_neg h, List.length_singleton]

/-- Witness for C8 at the untrimmed input `" ali "`. -/
theorem C8_witness :
    (doSearch " ali " { results := ResultsView.text "r", details := "d" }
        FetchOutcome.rejected).2 =
      ["/api/search?q=" ++ encodeURIComponent (jsTrim " ali ") ++ "&limit=25"] ∧
    (doSearch " ali " { results := ResultsView.text "r", details := "d" }
        FetchOutcome.rejected).2.length = 1 :=
  C8_single_request " ali " _ _ (by decide)

/-- Claim C7: `renderMiniList` is total on empty input — for a `null`,
`undefined`, or empty object it returns the "No data." block. -/
theorem C7_renderMiniList_empty :
    renderMiniList JSVal.null = "<div class=\"muted\">No data.</div>" ∧
    renderMiniList JSVal.undef = "<div class=\"muted\">No data.</div>" ∧
    renderMiniList (JSVal.obj []) = "<div class=\"muted\">No data.</div>" :=
  ⟨rfl, rfl, rfl⟩

/-- Claim C9: `escapeHtml` stringifies its input and maps each character
through `escapeChar`, which sends the five HTML-special characters to their
entities and leaves every other character unchanged; consequently the
output contains no literal `<`, `>`, double-quote, or single-quote. -/
theorem C9_escapeHtml_spec (v : JSVal) :
    escapeHtml v = escapeChars (jsString v).data ∧
    (∀ (c : Char) (s : String),
      escapeHtmlStr (String.singleton c ++ s) = escapeChar c ++ escapeHtmlStr s) ∧
    escapeChar '&' = "&amp;" ∧
    escapeChar '<' = "&lt;" ∧
    escapeChar '>' = "&gt;" ∧
    escapeChar '"' = "&quot;" ∧
    escapeChar (Char.ofNat 39) = "&#039;" ∧
    (∀ c : Char, c ∉ ['&', '<', '>', '"', Char.ofNat 39] →
      escapeChar c = String.singleton c) ∧
    (escapeHtml v).data.all htmlSafe = true := by
  refine ⟨rfl, fun c s => rfl, by decide, by decide, by decide, by decide, by decide,
    fun c hc => ?_, escapeChars_htmlSafe _⟩
  simp only [List.mem_cons, List.not_mem_nil, or_false, not_or] at hc
  obtain ⟨h1, h2, h3, h4, h5⟩ := hc
  rw [escapeChar, if_neg h1, if_neg h2, if_neg h3, if_neg h4, if_neg h5]

/-- Witness for C9: the per-character equation and the unchanged-character
case at concrete inputs. -/
theorem C9_witness :
    escapeChar 'x' = String.singleton 'x' ∧
    escapeHtmlStr (String.singleton '<' ++ "a") = escapeChar '<' ++ escapeHtmlStr "a" :=
  ⟨(C9_escapeHtml_spec JSVal.null).2.2.2.2.2.2.2.1 'x' (by decide),
    (C9_escapeHtml_spec JSVal.null).2.1 '<' "a"⟩

set_option maxRecDepth 8000 in
/-- Counterexample to claim C3 as stated: the response
`{error: "", name: "Xname"}` carries an `error` field, yet `loadDetails`
falls through the falsy `data.error` test and renders the record view —
the output is not the error-only block and contains the record's name. -/
theorem C3_counterexample :
    loadDetails (FetchOutcome.response true emptyErrData) ≠
      "<div class=\"muted\">" ++ escapeHtml (getPropV emptyErrData "error") ++ "</div>" ∧
    countSub "Xname".data (loadDetails (FetchOutcome.response true emptyErrData)).data = 1 := by
  constructor
  · decide
  · decide

/-- Claim C3 (amended): for every record response whose body's `error` field
is truthy (in particular any non-empty error message), `loadDetails`
renders only the HTML-escaped error message — the error is handled as
data, not as a fault. -/
theorem C3_truthy_error_only (data : JSVal)
    (h : truthy (getPropV data "error") = true) :
    loadDetails (FetchOutcome.response true data) =
      "<div class=\"muted\">" ++ escapeHtml (getPropV data "error") ++ "</div>" := by
  have hne : getPropV data "error" ≠ JSVal.undef := by
    intro he
    rw [he] at h
    exact Bool.false_ne_true h
  have hd : jsDeref data = true := jsDeref_of_getPropV_ne_undef hne
  simp [loadDetails, loadDetailsBody, hd, h]

/-- Witness for C3 at the response `{error: "missing"}`. -/
theorem C3_witness :
    loadDetails (FetchOutcome.response true (JSVal.obj [("error", JSVal.str "missing")])) =
      "<div class=\"muted\">"
        ++ escapeHtml (getPropV (JSVal.obj [("error", JSVal.str "missing")]) "error")
        ++ "</div>" :=
  C3_truthy_error_only _ (by decide)

/-- Claim C5: for every well-formed search response whose `results` array is
empty or absent, the UI renders the "No matches." notice and zero result
cards, and the handler completes without raising an error. -/
theorem C5_no_matches (value : String) (st : SearchPanels) (body : JSVal)
    (hq : jsTrim value ≠ "") (hwf : jsDeref body = true)
    (hres : getPropV body "results" = JSVal.undef ∨
      getPropV body "results" = JSVal.arr []) :
    (doSearch value st (FetchOutcome.response true body)).1.results =
      ResultsView.text noMatches ∧
    (∀ cs : List String,
      (doSearch value st (FetchOutcome.response true body)).1.results ≠
        ResultsView.cards cs) ∧
    doSearchOnData body = Except.ok (ResultsView.text noMatches) := by
  have hv : value ≠ "" := by
    rintro rfl
    exact hq rfl
  have hbody : doSearchOnData body = Except.ok (ResultsView.text noMatches) := by
    rcases hres with h | h
    · simp only [doSearchOnData, hwf, if_true, h]
      rfl
    · simp only [doSearchOnData, hwf, if_true, h]
      rfl
  refine ⟨?_, ?_, hbody⟩
  · simp [doSearch, if_neg hv, if_neg hq, hbody]
  · intro cs
    simp [doSearch, if_neg hv, if_neg hq, hbody]

/-- Witness for C5 at the response `{results: []}`. -/
theorem C5_witness :
    (doSearch "ali" { results := ResultsView.text "r", details := "d" }
        (FetchOutcome.response true (JSVal.obj [("results", JSVal.arr [])]))).1.results =
      ResultsView.text noMatches ∧
    (∀ cs : List String,
      (doSearch "ali" { results := ResultsView.text "r", details := "d" }
          (FetchOutcome.response true (JSVal.obj [("results", JSVal.arr [])]))).1.results ≠
        ResultsView.cards cs) ∧
    doSearchOnData (JSVal.obj [("results", JSVal.arr [])]) =
      Except.ok (ResultsView.text noMatches) :=
  C5_no_matches "ali" _ _ (by decide) (by decide) (Or.inr rfl)

/-- Claim C4: for every successful search response, the UI creates exactly
one result card per element of the `results` array and appends the cards in
exactly the order of that array — the server-reported order, with no
reordering or ranking. -/
theorem C4_cards_in_order (value : String) (st : SearchPanels) (body : JSVal)
    (rs : List JSVal) (cards : List String)
    (hq : jsTrim value ≠ "")
    (hres : getPropV body "results" = JSVal.arr rs)
    (hcards : buildCards rs = Except.ok cards)
    (hne : rs ≠ []) :
    (doSearch value st (FetchOutcome.response true body)).1.results =
      ResultsView.cards cards ∧
    cards = rs.map resultCard ∧
    cards.length = rs.length ∧
    ∀ (i : Nat) (hi : i < rs.length) (hi2 : i < cards.length),
      cards.get ⟨i, hi2⟩ = resultCard (rs.get ⟨i, hi⟩) := by
  have hv : value ≠ "" := by
    rintro rfl
    exact hq rfl
  have hwf : jsDeref body = true := by
    refine jsDeref_of_getPropV_ne_undef (k := "results") ?_
    rw [hres]
    simp
  have hmap : cards = rs.map resultCard := buildCards_eq_map hcards
  have hbody : doSearchOnData body = Except.ok (ResultsView.cards cards) := by
    cases rs with
    | nil => exact absurd rfl hne
    | cons r rs0 =>
        simp only [doSearchOnData, hwf, if_true, hres]
        have h1 : (!truthy (JSVal.arr (r :: rs0))) = false := rfl
        have h2 : jsLenIsZero (JSVal.arr (r :: rs0)) = false := rfl
        rw [h1, h2]
        simp only [Bool.false_eq_true, if_false, hcards, Except.map]
  refine ⟨?_, hmap, ?_, ?_⟩
  · simp [doSearch, if_neg hv, if_neg hq, hbody]
  · rw [hmap, List.length_map]
  · intro i hi hi2
    subst hmap
    simp [List.getElem_map]

/-- Witness for C4 at a two-element results array. -/
theorem C4_witness :
    (doSearch "ali" { results := ResultsView.text "r", details := "d" }
        (FetchOutcome.response true (JSVal.obj [("results",
          JSVal.arr [JSVal.obj [("name", JSVal.str "A")], JSVal.obj []])]))).1.results =
      ResultsView.cards
        [resultCard (JSVal.obj [("name", JSVal.str "A")]), resultCard (JSVal.obj [])] ∧
    [resultCard (JSVal.obj [("name", JSVal.str "A")]), resultCard (JSVal.obj [])] =
      [JSVal.obj [("name", JSVal.str "A")], JSVal.obj []].map resultCard ∧
    ([resultCard (JSVal.obj [("name", JSVal.str "A")]), resultCard (JSVal.obj [])]).length =
      ([JSVal.obj [("name", JSVal.str "A")], JSVal.obj []]).length ∧
    ∀ (i : Nat) (hi : i < ([JSVal.obj [("name", JSVal.str "A")], JSVal.obj []]).length)
      (hi2 : i < ([resultCard (JSVal.obj [("name", JSVal.str "A")]),
        resultCard (JSVal.obj [])]).length),
      ([resultCard (JSVal.obj [("name", JSVal.str "A")]),
        resultCard (JSVal.obj [])]).get ⟨i, hi2⟩ =
        resultCard (([JSVal.obj [("name", JSVal.str "A")], JSVal.obj []]).get ⟨i, hi⟩) :=
  C4_cards_in_order "ali" _ _ _ _ (by decide) rfl rfl (List.cons_ne_nil _ _)

/-- Claim C10: for every insights, search, or record request that is
rejected or answered with a non-ok HTTP status, the handler replaces the
target panel with its fallback error message, and the panel is never left
showing the transient "Loading..."/"Searching..." text. -/
theorem C10_fallback_on_failure (value : String) (st : SearchPanels)
    (b1 b2 b3 : JSVal) (hq : jsTrim value ≠ "") :
    loadInsights FetchOutcome.rejected = insightsFail ∧
    loadInsights (FetchOutcome.response false b1) = insightsFail ∧
    insightsFail ≠ "Loading..." ∧
    (doSearch value st FetchOutcome.rejected).1.results = ResultsView.text searchFail ∧
    (doSearch value st (FetchOutcome.response false b2)).1.results =
      ResultsView.text searchFail ∧
    searchFail ≠ "Searching..." ∧
    loadDetails FetchOutcome.rejected = detailsFail ∧
    loadDetails (FetchOutcome.response false b3) = detailsFail ∧
    detailsFail ≠ "Loading..." := by
  have hv : value ≠ "" := by
    rintro rfl
    exact hq rfl
  refine ⟨rfl, rfl, by decide, ?_, ?_, by decide, rfl, rfl, by decide⟩
  · simp [doSearch, if_neg hv, if_neg hq]
  · simp [doSearch, if_neg hv, if_neg hq]

/-- Witness for C10 at the query `"x"`. -/
theorem C10_witness :
    loadInsights FetchOutcome.rejected = insightsFail ∧
    loadInsights (FetchOutcome.response false JSVal.null) = insightsFail ∧
    insightsFail ≠ "Loading..." ∧
    (doSearch "x" { results := ResultsView.text "r", details := "d" }
        FetchOutcome.rejected).1.results = ResultsView.text searchFail ∧
    (doSearch "x" { results := ResultsView.text "r", details := "d" }
        (FetchOutcome.response false JSVal.null)).1.results =
      ResultsView.text searchFail ∧
    searchFail ≠ "Searching..." ∧
    loadDetails FetchOutcome.rejected = detailsFail ∧
    loadDetails (FetchOutcome.response false JSVal.null) = detailsFail ∧
    detailsFail ≠ "Loading..." :=
  C10_fallback_on_failure "x" _ _ _ _ (by decide)

set_option maxRecDepth 100000 in
/-- Claim C6: for every successful insights response, `loadInsights` renders
all eight snapshot fields — total_records, total_amount, missing_email_pct,
missing_phone_pct, duplicate_emails, duplicate_phones, top_events,
top_payment_status — each exactly once: the markup decomposes into fixed
segments with one slot per field, and at a payload carrying pairwise
distinct markers each marker occurs exactly once in the output. -/
theorem C6_insights_fields :
    (∃ s0 s1 s2 s3 s4 s5 s6 s7 s8 : String, ∀ d : JSVal,
      insightsHtml d = s0 ++ escapeHtml (getPropV d "total_records")
        ++ s1 ++ escapeHtml (getPropV d "total_amount")
        ++ s2 ++ escapeHtml (getPropV d "missing_email_pct")
        ++ s3 ++ escapeHtml (getPropV d "missing_phone_pct")
        ++ s4 ++ escapeHtml (getPropV d "duplicate_emails")
        ++ s5 ++ escapeHtml (getPropV d "duplicate_phones")
        ++ s6 ++ renderMiniList (getPropV d "top_events")
        ++ s7 ++ renderMiniList (getPropV d "top_payment_status") ++ s8) ∧
    (loadInsights (FetchOutcome.response true mkInsightsData) =
      insightsHtml mkInsightsData) ∧
    countSub "MRKA".data (insightsHtml mkInsightsData).data = 1 ∧
    countSub "MRKB".data (insightsHtml mkInsightsData).data = 1 ∧
    countSub "MRKC".data (insightsHtml mkInsightsData).data = 1 ∧
    countSub "MRKD".data (insightsHtml mkInsightsData).data = 1 ∧
    countSub "MRKE".data (insightsHtml mkInsightsData).data = 1 ∧
    countSub "MRKF".data (insightsHtml mkInsightsData).data = 1 ∧
    countSub "MRKG".data (insightsHtml mkInsightsData).data = 1 ∧
    countSub "MRKH".data (insightsHtml mkInsightsData).data = 1 := by
  refine ⟨⟨_, _, _, _, _, _, _, _, _, fun d => rfl⟩, rfl,
    by decide, by decide, by decide, by decide, by decide, by decide, by decide, by decide⟩

/-- Claim C1: for every record response without an `error` field whose `raw`
field is an object, `loadDetails` renders the full details markup with
exactly one key/value row per key of `raw`, the rows listed in
lexicographically sorted key order (a permutation of the original key
order), and each value rendered as its string form with `null`/`undefined`
shown as the empty string. -/
theorem C1_raw_rows_sorted (data : JSVal) (raw : List (String × JSVal))
    (herr : getPropV data "error" = JSVal.undef)
    (hraw : getPropV data "raw" = JSVal.obj raw)
    (hnd : (raw.map Prod.fst).Nodup) :
    ∃ ks : List String,
      ks.Perm (raw.map Prod.fst) ∧
      List.Sorted (· ≤ ·) ks ∧
      detailsRows (JSVal.obj raw) = ks.map (detailsKvRow (JSVal.obj raw)) ∧
      (detailsRows (JSVal.obj raw)).length = raw.length ∧
      loadDetails (FetchOutcome.response true data) =
        detailsHead data ++ String.join (detailsRows (JSVal.obj raw)) ++ "</div>" ∧
      (∀ k v, (k, v) ∈ raw → detailsKvRow (JSVal.obj raw) k =
        "<div class=\"k\">" ++ escapeHtmlStr k ++ "</div><div class=\"v\">"
          ++ escapeHtmlStr (jsString (jsNullish v (JSVal.str ""))) ++ "</div>") ∧
      jsString (jsNullish JSVal.null (JSVal.str "")) = "" ∧
      jsString (jsNullish JSVal.undef (JSVal.str "")) = "" := by
  have hne : getPropV data "raw" ≠ JSVal.undef := by
    rw [hraw]
    simp
  have hwf : jsDeref data = true := jsDeref_of_getPropV_ne_undef hne
  have htr : truthy (getPropV data "error") = false := by
    rw [herr]
    rfl
  refine ⟨sortKeys (raw.map Prod.fst), List.perm_insertionSort _ _,
    List.sorted_insertionSort _ _, rfl, ?_, ?_, ?_, rfl, rfl⟩
  · rw [detailsRows, List.length_map, sortKeys,
      (List.perm_insertionSort (· ≤ ·) (jsKeys (JSVal.obj raw))).length_eq,
      jsKeys, List.length_map]
    rfl
  · have hb : loadDetailsBody data = Except.ok
        (detailsHead data ++ String.join (detailsRows (JSVal.obj raw)) ++ "</div>") := by
      unfold loadDetailsBody
      rw [hwf, htr, hraw]
      simp only [eq_self_iff_true, if_true, Bool.false_eq_true, if_false]
      rfl
    calc loadDetails (FetchOutcome.response true data)
        = (match loadDetailsBody data with
            | .ok h => h
            | .error _ => detailsFail) := rfl
      _ = detailsHead data ++ String.join (detailsRows (JSVal.obj raw)) ++ "</div>" := by
          rw [hb]
  · intro k v hm
    have hget : getPropV (JSVal.obj raw) k = v := by
      simp [getPropV, lookup_eq_some_of_nodup hnd hm]
    rw [detailsKvRow, hget]
    rfl

/-- Witness for C1 at a record whose raw map has two keys in unsorted order. -/
theorem C1_witness :
    ∃ ks : List String,
      ks.Perm (([("b", JSVal.null), ("a", JSVal.str "v")]).map Prod.fst) ∧
      List.Sorted (· ≤ ·) ks ∧
      detailsRows (JSVal.obj [("b", JSVal.null), ("a", JSVal.str "v")]) =
        ks.map (detailsKvRow (JSVal.obj [("b", JSVal.null), ("a", JSVal.str "v")])) ∧
      (detailsRows (JSVal.obj [("b", JSVal.null), ("a", JSVal.str "v")])).length =
        ([("b", JSVal.null), ("a", JSVal.str "v")]).length ∧
      loadDetails (FetchOutcome.response true
          (JSVal.obj [("raw", JSVal.obj [("b", JSVal.null), ("a", JSVal.str "v")])])) =
        detailsHead (JSVal.obj [("raw", JSVal.obj [("b", JSVal.null), ("a", JSVal.str "v")])])
          ++ String.join (detailsRows (JSVal.obj [("b", JSVal.null), ("a", JSVal.str "v")]))
          ++ "</div>" ∧
      (∀ k v, (k, v) ∈ [("b", JSVal.null), ("a", JSVal.str "v")] →
        detailsKvRow (JSVal.obj [("b", JSVal.null), ("a", JSVal.str "v")]) k =
          "<div class=\"k\">" ++ escapeHtmlStr k ++ "</div><div class=\"v\">"
            ++ escapeHtmlStr (jsString (jsNullish v (JSVal.str ""))) ++ "</div>") ∧
      jsString (jsNullish JSVal.null (JSVal.str "")) = "" ∧
      jsString (jsNullish JSVal.undef (JSVal.str "")) = "" :=
  C1_raw_rows_sorted
    (JSVal.obj [("raw", JSVal.obj [("b", JSVal.null), ("a", JSVal.str "v")])])
    [("b", JSVal.null), ("a", JSVal.str "v")] rfl rfl (by decide)
